import Mathlib

/-!
# WinuX / unetbootin: the Qt4 compatibility shim `qt4compat.h`

A shallow embedding of `src/unetbootin/qt4compat.h`, the header that supplies
the Qt4 networking classes (`QHttpRequestHeader`, `QHttpResponseHeader`,
`QUrlInfo`, `QHttp`, `QFtp`) when the program is built against Qt 5 or later
(the branch guarded by `QT_VERSION >= QT_VERSION_CHECK(5, 0, 0)`).

Every member function of the header has an inline body, and the embedding
translates exactly those bodies:

* a C++ class with no data members is a structure with no fields; the two
  `QObject` subclasses keep the one thing their constructor stores, the parent;
* a member function that may touch the outside world or emit a signal is a
  function on a *session*: the object, the network it could talk to, and the
  signals emitted so far.  A body that is `{}` returns the session unchanged,
  a body that is `{ return 0; }` returns `0` and the session unchanged;
* default arguments are resolved where the call is written, as in C++: a call
  with omitted arguments is the call with the declared defaults filled in.

Definitions under the namespace `Spec` are not translated from the header:
they render the vocabulary of the specification (connection states, server
scripts) in which the properties are stated.
-/

namespace Qt4Compat

/-! ## Basic Qt types -/

/-- A `QString`.  Only equality of contents is observed. -/
abbrev QString := String

/-- The default-constructed string `QString()`. -/
def QString.null : QString := ""

/-- A `QByteArray`, as its list of bytes. -/
abbrev QByteArray := List Nat

/-- A `QObject *`: `none` is `nullptr`, `some a` the object at address `a`. -/
abbrev QObjectPtr := Option Nat

/-- A `QIODevice *`: `none` is `nullptr`, `some a` the device at address `a`. -/
abbrev QIODevicePtr := Option Nat

/-! ## The outside world -/

/-- The socket operations a transfer client could perform. -/
inductive NetOp where
  | openControl (host : QString) (port : Nat)
  | openData
  | send (text : QString)
  | receive (text : QString)
  | shutdown
  deriving DecidableEq, Repr

/-- The network as seen from one client: what the remote peer would answer,
in order, and the socket operations performed so far, oldest first. -/
structure Net where
  server : List QString
  log : List NetOp
  deriving DecidableEq, Repr

/-! ## `QHttpRequestHeader` (lines 19-25) -/

/-- The class `QHttpRequestHeader`: no data members. -/
structure QHttpRequestHeader where
  deriving DecidableEq, Repr

/-- The constructor `QHttpRequestHeader()`. -/
def QHttpRequestHeader.new : QHttpRequestHeader := {}

/-- The constructor `QHttpRequestHeader(const QString &, const QString &)`. -/
def QHttpRequestHeader.new2 (_method _path : QString) : QHttpRequestHeader := {}

/-- The member `setRequest`, body `{}`. -/
def QHttpRequestHeader.setRequest (self : QHttpRequestHeader) (_method _path : QString) :
    QHttpRequestHeader := self

/-- The member `setValue`, body `{}`. -/
def QHttpRequestHeader.setValue (self : QHttpRequestHeader) (_key _value : QString) :
    QHttpRequestHeader := self

/-! ## `QHttpResponseHeader` (lines 28-35) -/

/-- The class `QHttpResponseHeader`: no data members. -/
structure QHttpResponseHeader where
  deriving DecidableEq, Repr

/-- The constructor `QHttpResponseHeader()`. -/
def QHttpResponseHeader.new : QHttpResponseHeader := {}

/-- The constructor `QHttpResponseHeader(const QString &)`, body `{}`. -/
def QHttpResponseHeader.fromString (_str : QString) : QHttpResponseHeader := {}

/-- The member `statusCode`, body `{ return 200; }`. -/
def QHttpResponseHeader.statusCode (_self : QHttpResponseHeader) : Int := 200

/-- The member `hasKey`, body `{ return false; }`. -/
def QHttpResponseHeader.hasKey (_self : QHttpResponseHeader) (_key : QString) : Bool := false

/-- The member `value`, body `{ return QString(); }`. -/
def QHttpResponseHeader.value (_self : QHttpResponseHeader) (_key : QString) : QString :=
  QString.null

/-! ## `QUrlInfo` (lines 38-48) -/

/-- The class `QUrlInfo`: no data members. -/
structure QUrlInfo where
  deriving DecidableEq, Repr

/-- The constructor `QUrlInfo()`. -/
def QUrlInfo.new : QUrlInfo := {}

/-- The member `name`, body `{ return QString(); }`. -/
def QUrlInfo.name (_self : QUrlInfo) : QString := QString.null

/-- The member `size`, body `{ return 0; }`. -/
def QUrlInfo.size (_self : QUrlInfo) : Int := 0

/-- The member `isFile`, body `{ return true; }`. -/
def QUrlInfo.isFile (_self : QUrlInfo) : Bool := true

/-- The member `isDir`, body `{ return false; }`. -/
def QUrlInfo.isDir (_self : QUrlInfo) : Bool := false

/-- The member `isValid`, body `{ return true; }`. -/
def QUrlInfo.isValid (_self : QUrlInfo) : Bool := true

/-- The member `isReadable`, body `{ return true; }`. -/
def QUrlInfo.isReadable (_self : QUrlInfo) : Bool := true

/-- The member `isSymLink`, body `{ return false; }`. -/
def QUrlInfo.isSymLink (_self : QUrlInfo) : Bool := false

/-! ## `QHttp` (lines 51-64) -/

/-- The class `QHttp`: a `QObject` with no data members of its own. -/
structure QHttp where
  parent : QObjectPtr
  deriving DecidableEq, Repr

/-- The signals of `QHttp`: `done(bool)` and `dataReadProgress(int, int)`. -/
inductive QHttpSignal where
  | done (error : Bool)
  | dataReadProgress (bytesDone : Int) (bytesTotal : Int)
  deriving DecidableEq, Repr

/-- A `QHttp` object in its surroundings: the object, the network, and the
signals it has emitted so far, oldest first. -/
structure HttpSession where
  self : QHttp
  net : Net
  signals : List QHttpSignal
  deriving DecidableEq, Repr

/-- The constructor `QHttp(QObject *parent)`: only the base class is initialised. -/
def QHttp.new (parent : QObjectPtr) : QHttp := { parent := parent }

/-- A newly constructed `QHttp` facing the network `net`. -/
def HttpSession.start (parent : QObjectPtr) (net : Net) : HttpSession :=
  { self := QHttp.new parent, net := net, signals := [] }

/-- The member `setHost`, body `{}`. -/
def QHttp.setHost (s : HttpSession) (_host : QString) : HttpSession := s

/-- The member `request(const QHttpRequestHeader &, QIODevice *, QIODevice *)`,
body `{ return 0; }`. -/
def QHttp.request (s : HttpSession) (_header : QHttpRequestHeader)
    (_data _to : QIODevicePtr) : Int × HttpSession := (0, s)

/-- The overload `request(const QString &)`, body `{ return 0; }`. -/
def QHttp.requestStr (s : HttpSession) (_path : QString) : Int × HttpSession := (0, s)

/-- The member `lastResponse`, body `{ return QString(); }`. -/
def QHttp.lastResponse (_s : HttpSession) : QString := QString.null

/-- The member `readAll`, body `{ return QByteArray(); }`. -/
def QHttp.readAll (s : HttpSession) : QByteArray × HttpSession := ([], s)

/-- The member `close`, body `{}`. -/
def QHttp.close (s : HttpSession) : HttpSession := s

/-- The signals emitted between the session `before` and the later session `after`. -/
def HttpSession.emittedBy (before after : HttpSession) : List QHttpSignal :=
  after.signals.drop before.signals.length

/-- The socket operations performed between `before` and the later `after`. -/
def HttpSession.netOpsBy (before after : HttpSession) : List NetOp :=
  after.net.log.drop before.net.log.length

/-! ## `QFtp` (lines 67-81) -/

/-- The class `QFtp`: a `QObject` with no data members of its own. -/
structure QFtp where
  parent : QObjectPtr
  deriving DecidableEq, Repr

/-- The enumeration `QFtp::TransferType`. -/
inductive QFtp.TransferType where
  | Binary
  | Ascii
  deriving DecidableEq, Repr

/-- The signals of `QFtp`: `done(bool)`, `dataTransferProgress(qint64, qint64)`
and `listInfo(const QUrlInfo &)`. -/
inductive QFtpSignal where
  | done (error : Bool)
  | dataTransferProgress (bytesDone : Int) (bytesTotal : Int)
  | listInfo (info : QUrlInfo)
  deriving DecidableEq, Repr

/-- A `QFtp` object in its surroundings: the object, the network, and the
signals it has emitted so far, oldest first. -/
structure FtpSession where
  self : QFtp
  net : Net
  signals : List QFtpSignal
  deriving DecidableEq, Repr

/-- The constructor `QFtp(QObject *parent)`: only the base class is initialised. -/
def QFtp.new (parent : QObjectPtr) : QFtp := { parent := parent }

/-- A newly constructed `QFtp` facing the network `net`. -/
def FtpSession.start (parent : QObjectPtr) (net : Net) : FtpSession :=
  { self := QFtp.new parent, net := net, signals := [] }

/-- The member `connectToHost(const QString &, quint16)`, body `{}`. -/
def QFtp.connectToHost (s : FtpSession) (_host : QString) (_port : Nat) : FtpSession := s

/-- The member `login(const QString &, const QString &)`, body `{}`. -/
def QFtp.login (s : FtpSession) (_user _password : QString) : FtpSession := s

/-- The member `get(const QString &, QIODevice *, TransferType)`, body `{ return 0; }`. -/
def QFtp.get (s : FtpSession) (_file : QString) (_dev : QIODevicePtr)
    (_type : QFtp.TransferType) : Int × FtpSession := (0, s)

/-- The member `list(const QString &)`, body `{ return 0; }`. -/
def QFtp.list (s : FtpSession) (_dir : QString) : Int × FtpSession := (0, s)

/-- The member `close`, body `{}`. -/
def QFtp.close (s : FtpSession) : FtpSession := s

/-- The signals emitted between the session `before` and the later session `after`. -/
def FtpSession.emittedBy (before after : FtpSession) : List QFtpSignal :=
  after.signals.drop before.signals.length

/-- The socket operations performed between `before` and the later `after`. -/
def FtpSession.netOpsBy (before after : FtpSession) : List NetOp :=
  after.net.log.drop before.net.log.length

/-! ## Calls on a `QFtp`, with their default arguments -/

/-- A call of a public member of `QFtp` with every argument written out. -/
inductive FtpCall where
  | connectToHost (host : QString) (port : Nat)
  | login (user password : QString)
  | get (file : QString) (dev : QIODevicePtr) (type : QFtp.TransferType)
  | list (dir : QString)
  | close
  deriving DecidableEq, Repr

/-- The call `connectToHost(host)`: the declaration gives `quint16 = 21`. -/
def FtpCall.connectToHost1 (host : QString) : FtpCall := FtpCall.connectToHost host 21

/-- The call `login()`: the declaration gives `QString()` for both arguments. -/
def FtpCall.login0 : FtpCall := FtpCall.login QString.null QString.null

/-- The call `login(user)`: the declaration gives `QString()` for the password. -/
def FtpCall.login1 (user : QString) : FtpCall := FtpCall.login user QString.null

/-- The call `get(file)`: the declaration gives `nullptr` and `Binary`. -/
def FtpCall.get1 (file : QString) : FtpCall :=
  FtpCall.get file none QFtp.TransferType.Binary

/-- The call `get(file, dev)`: the declaration gives `TransferType = Binary`. -/
def FtpCall.get2 (file : QString) (dev : QIODevicePtr) : FtpCall :=
  FtpCall.get file dev QFtp.TransferType.Binary

/-- The call `list()`: the declaration gives `QString()`. -/
def FtpCall.list0 : FtpCall := FtpCall.list QString.null

/-- Performing one call on a session. -/
def QFtp.perform (s : FtpSession) : FtpCall → FtpSession
  | FtpCall.connectToHost host port => QFtp.connectToHost s host port
  | FtpCall.login user password => QFtp.login s user password
  | FtpCall.get file dev type => (QFtp.get s file dev type).2
  | FtpCall.list dir => (QFtp.list s dir).2
  | FtpCall.close => QFtp.close s

/-- Performing a sequence of calls, first to last. -/
def QFtp.performAll (s : FtpSession) (calls : List FtpCall) : FtpSession :=
  calls.foldl QFtp.perform s

/-! ## Reading the signals of a request -/

/-- Whether a `QHttp` signal is the terminal one, `done`. -/
def QHttpSignal.isDone : QHttpSignal → Bool
  | QHttpSignal.done _ => true
  | _ => false

/-- Whether a `QFtp` signal is the terminal one, `done`. -/
def QFtpSignal.isDone : QFtpSignal → Bool
  | QFtpSignal.done _ => true
  | _ => false

/-- The first argument of a `dataReadProgress` signal, the bytes transferred. -/
def QHttpSignal.progress? : QHttpSignal → Option Int
  | QHttpSignal.dataReadProgress bytesDone _ => some bytesDone
  | _ => none

/-- The first argument of a `dataTransferProgress` signal, the bytes transferred. -/
def QFtpSignal.progress? : QFtpSignal → Option Int
  | QFtpSignal.dataTransferProgress bytesDone _ => some bytesDone
  | _ => none

/-- The argument of a `listInfo` signal. -/
def QFtpSignal.listInfo? : QFtpSignal → Option QUrlInfo
  | QFtpSignal.listInfo info => some info
  | _ => none

/-- A sequence of events has exactly one terminal event, and it is the last one. -/
def exactlyOneTerminalLast {E : Type} (isDone : E → Bool) (events : List E) : Prop :=
  events.countP isDone = 1 ∧ (events.getLast?.map isDone) = some true

/-- No event of the sequence follows a terminal event. -/
def nothingAfterTerminal {E : Type} (isDone : E → Bool) (events : List E) : Prop :=
  ∀ before after : List E, ∀ e : E,
    events = before ++ e :: after → isDone e = true → after = []

/-- The bytes-transferred values of the progress signals emitted between two sessions. -/
def HttpSession.progressBy (before after : HttpSession) : List Int :=
  (HttpSession.emittedBy before after).filterMap QHttpSignal.progress?

/-- The bytes-transferred values of the progress signals emitted between two sessions. -/
def FtpSession.progressBy (before after : FtpSession) : List Int :=
  (FtpSession.emittedBy before after).filterMap QFtpSignal.progress?

/-- The directory entries announced by `listInfo` between two sessions, in order. -/
def FtpSession.listedBy (before after : FtpSession) : List QUrlInfo :=
  (FtpSession.emittedBy before after).filterMap QFtpSignal.listInfo?

/-! ## The vocabulary of the specification -/

/-- The connection states the specification gives an FTP client. -/
inductive Spec.ConnectionState where
  | Disconnected
  | Connected
  | Authenticated
  | Transferring
  | Closed
  deriving DecidableEq, Repr

/-- The state machine of the specification, each operation taken to succeed:
`Disconnected --connect--> Connected --login--> Authenticated`, a transfer
started from `Authenticated` ends in `Authenticated` again, `close` leads to
`Closed` from anywhere, and a call out of sequence leaves the state alone. -/
def Spec.step : Spec.ConnectionState → FtpCall → Spec.ConnectionState
  | _, FtpCall.close => Spec.ConnectionState.Closed
  | Spec.ConnectionState.Disconnected, FtpCall.connectToHost _ _ =>
      Spec.ConnectionState.Connected
  | Spec.ConnectionState.Connected, FtpCall.login _ _ =>
      Spec.ConnectionState.Authenticated
  | st, _ => st

/-- The specification's connection state of a client after the given calls,
starting from `Disconnected`. -/
def Spec.connectionState (calls : List FtpCall) : Spec.ConnectionState :=
  calls.foldl Spec.step Spec.ConnectionState.Disconnected

/-- The status line of an HTTP response with the given status code. -/
def Spec.statusLine (code : Nat) (reason : QString) : QString :=
  "HTTP/1.1 " ++ toString code ++ " " ++ reason

/-- What a server sends for a chain of `n` redirects followed by the final
resource: `n` times a 3xx status line with a `Location` header, then `200 OK`. -/
def Spec.redirectChain (n : Nat) : List QString :=
  ((List.range n).map fun i =>
      [Spec.statusLine 302 "Found", "Location: /hop" ++ toString (i + 1)]).flatten
    ++ [Spec.statusLine 200 "OK"]

/-- The listing line of the specification's FTP LIST scenario. -/
def Spec.isoListing : List QString :=
  ["-rw-r--r-- 1 user user 4096 Jan 1 00:00 image.iso"]

/-- A newly constructed HTTP client facing a server that answers with `lines`. -/
def Spec.httpAgainst (lines : List QString) : HttpSession :=
  HttpSession.start none { server := lines, log := [] }

/-- A newly constructed FTP client facing a server that answers with `lines`,
after the given calls have been made on it. -/
def Spec.ftpAgainst (lines : List QString) (calls : List FtpCall) : FtpSession :=
  QFtp.performAll (FtpSession.start none { server := lines, log := [] }) calls

/-! ## Basic facts about the shim -/

theorem HttpSession.http_emittedBy_self (s : HttpSession) : HttpSession.emittedBy s s = [] := by
  simp [HttpSession.emittedBy]

theorem FtpSession.ftp_emittedBy_self (s : FtpSession) : FtpSession.emittedBy s s = [] := by
  simp [FtpSession.emittedBy]

theorem HttpSession.http_netOpsBy_self (s : HttpSession) : HttpSession.netOpsBy s s = [] := by
  simp [HttpSession.netOpsBy]

theorem FtpSession.ftp_netOpsBy_self (s : FtpSession) : FtpSession.netOpsBy s s = [] := by
  simp [FtpSession.netOpsBy]

theorem QFtp.perform_eq (s : FtpSession) (c : FtpCall) : QFtp.perform s c = s := by
  cases c <;> rfl

theorem QFtp.performAll_eq (s : FtpSession) (calls : List FtpCall) :
    QFtp.performAll s calls = s := by
  induction calls with
  | nil => rfl
  | cons c cs ih =>
      simpa [QFtp.performAll, List.foldl_cons, QFtp.perform_eq] using ih

/-! ## C1: `get` and `list` outside the `Authenticated` state -/

/-- C1, as stated, fails.  A newly constructed FTP client (`Disconnected`), and
one on which only `connectToHost` was called (`Connected`, before login), are
not `Authenticated`, yet `get` and `list` on them emit no `done(true)`: no
failure of any kind, so no `InvalidStateError`, is reported. -/
theorem C1_counterexample :
    Spec.connectionState [] = Spec.ConnectionState.Disconnected ∧
    Spec.connectionState [FtpCall.connectToHost1 "ftp.example.test"]
      = Spec.ConnectionState.Connected ∧
    QFtpSignal.done true ∉
      FtpSession.emittedBy (Spec.ftpAgainst [] [])
        (QFtp.get (Spec.ftpAgainst [] []) "/iso/image.iso" (some 1)
          QFtp.TransferType.Binary).2 ∧
    QFtpSignal.done true ∉
      FtpSession.emittedBy (Spec.ftpAgainst [] [FtpCall.connectToHost1 "ftp.example.test"])
        (QFtp.list (Spec.ftpAgainst [] [FtpCall.connectToHost1 "ftp.example.test"])
          "/iso/").2 := by
  refine ⟨rfl, rfl, ?_, ?_⟩ <;> simp [QFtp.get, QFtp.list, FtpSession.ftp_emittedBy_self]

/-- C1, amended.  For every FTP client, after any sequence of calls (so in any
connection state, `Disconnected` and `Connected` before login included), `get`
and `list` return `0`, emit no signal (no failure is reported), perform no
socket operation (no data connection is opened) and leave the client and the
network as they were. -/
theorem C1_get_list_inert (net : Net) (parent : QObjectPtr) (calls : List FtpCall)
    (file dir : QString) (dev : QIODevicePtr) (type : QFtp.TransferType) :
    (QFtp.get (QFtp.performAll (FtpSession.start parent net) calls) file dev type).1 = 0 ∧
    (QFtp.list (QFtp.performAll (FtpSession.start parent net) calls) dir).1 = 0 ∧
    FtpSession.emittedBy (QFtp.performAll (FtpSession.start parent net) calls)
      (QFtp.get (QFtp.performAll (FtpSession.start parent net) calls) file dev type).2 = [] ∧
    FtpSession.emittedBy (QFtp.performAll (FtpSession.start parent net) calls)
      (QFtp.list (QFtp.performAll (FtpSession.start parent net) calls) dir).2 = [] ∧
    FtpSession.netOpsBy (QFtp.performAll (FtpSession.start parent net) calls)
      (QFtp.get (QFtp.performAll (FtpSession.start parent net) calls) file dev type).2 = [] ∧
    FtpSession.netOpsBy (QFtp.performAll (FtpSession.start parent net) calls)
      (QFtp.list (QFtp.performAll (FtpSession.start parent net) calls) dir).2 = [] ∧
    (QFtp.get (QFtp.performAll (FtpSession.start parent net) calls) file dev type).2
      = FtpSession.start parent net ∧
    (QFtp.list (QFtp.performAll (FtpSession.start parent net) calls) dir).2
      = FtpSession.start parent net := by
  simp [QFtp.get, QFtp.list, QFtp.performAll_eq, FtpSession.ftp_emittedBy_self,
    FtpSession.ftp_netOpsBy_self]

/-! ## C2: one terminal event per request -/

/-- C2, as stated, fails.  For an HTTP `request` answered with `200 OK` and for
an FTP `get`, the events emitted do not consist of exactly one `done` in last
position: no `done` is emitted at all. -/
theorem C2_counterexample :
    ¬ exactlyOneTerminalLast QHttpSignal.isDone
        (HttpSession.emittedBy (Spec.httpAgainst [Spec.statusLine 200 "OK"])
          (QHttp.requestStr (Spec.httpAgainst [Spec.statusLine 200 "OK"]) "/file.img").2) ∧
    ¬ exactlyOneTerminalLast QFtpSignal.isDone
        (FtpSession.emittedBy (Spec.ftpAgainst [] [])
          (QFtp.get (Spec.ftpAgainst [] []) "/iso/image.iso" (some 1)
            QFtp.TransferType.Binary).2) := by
  constructor <;>
    simp [exactlyOneTerminalLast, QHttp.requestStr, QFtp.get, HttpSession.http_emittedBy_self,
      FtpSession.ftp_emittedBy_self]

/-- C2, amended.  For every request issued through the HTTP client (either
overload of `request`) or the FTP client (`get`, `list`), the sequence of
events emitted for it is empty: it contains no `done` signal, hence at most
one, and no event follows a `done` signal. -/
theorem C2_at_most_one_terminal (h : HttpSession) (f : FtpSession)
    (header : QHttpRequestHeader) (data dest : QIODevicePtr) (path file dir : QString)
    (dev : QIODevicePtr) (type : QFtp.TransferType) :
    (HttpSession.emittedBy h (QHttp.request h header data dest).2 = [] ∧
      (HttpSession.emittedBy h (QHttp.request h header data dest).2).countP
        QHttpSignal.isDone = 0 ∧
      nothingAfterTerminal QHttpSignal.isDone
        (HttpSession.emittedBy h (QHttp.request h header data dest).2)) ∧
    (HttpSession.emittedBy h (QHttp.requestStr h path).2 = [] ∧
      (HttpSession.emittedBy h (QHttp.requestStr h path).2).countP QHttpSignal.isDone = 0 ∧
      nothingAfterTerminal QHttpSignal.isDone
        (HttpSession.emittedBy h (QHttp.requestStr h path).2)) ∧
    (FtpSession.emittedBy f (QFtp.get f file dev type).2 = [] ∧
      (FtpSession.emittedBy f (QFtp.get f file dev type).2).countP QFtpSignal.isDone = 0 ∧
      nothingAfterTerminal QFtpSignal.isDone
        (FtpSession.emittedBy f (QFtp.get f file dev type).2)) ∧
    (FtpSession.emittedBy f (QFtp.list f dir).2 = [] ∧
      (FtpSession.emittedBy f (QFtp.list f dir).2).countP QFtpSignal.isDone = 0 ∧
      nothingAfterTerminal QFtpSignal.isDone
        (FtpSession.emittedBy f (QFtp.list f dir).2)) := by
  simp [QHttp.request, QHttp.requestStr, QFtp.get, QFtp.list, HttpSession.http_emittedBy_self,
    FtpSession.ftp_emittedBy_self, nothingAfterTerminal]

/-! ## C3: the reported HTTP status code -/

/-- C3, as stated, fails.  For the response `404 Not Found` the header reports
a status code other than 404, and the request made to that server emits no
`done(true)`: no failure carrying 404 is produced. -/
theorem C3_counterexample :
    QHttpResponseHeader.statusCode
        (QHttpResponseHeader.fromString (Spec.statusLine 404 "Not Found")) ≠ 404 ∧
    QHttpSignal.done true ∉
      HttpSession.emittedBy (Spec.httpAgainst [Spec.statusLine 404 "Not Found"])
        (QHttp.requestStr (Spec.httpAgainst [Spec.statusLine 404 "Not Found"])
          "/missing.img").2 := by
  constructor
  · simp [QHttpResponseHeader.statusCode]
  · simp [QHttp.requestStr, HttpSession.http_emittedBy_self]

/-- C3, amended.  For every HTTP response, whatever its own status code, the
status code the header reports is 200, a value in [200,300); and `request`
(either overload) returns `0` and emits no signal, so it produces neither a
success nor a failure carrying a status code. -/
theorem C3_status_always_200 (code : Nat) (reason : QString) (h : HttpSession)
    (header : QHttpRequestHeader) (data dest : QIODevicePtr) (path : QString) :
    QHttpResponseHeader.statusCode
        (QHttpResponseHeader.fromString (Spec.statusLine code reason)) = 200 ∧
    (200 ≤ QHttpResponseHeader.statusCode
        (QHttpResponseHeader.fromString (Spec.statusLine code reason)) ∧
      QHttpResponseHeader.statusCode
        (QHttpResponseHeader.fromString (Spec.statusLine code reason)) < 300) ∧
    (QHttp.request h header data dest).1 = 0 ∧
    (QHttp.requestStr h path).1 = 0 ∧
    HttpSession.emittedBy h (QHttp.request h header data dest).2 = [] ∧
    HttpSession.emittedBy h (QHttp.requestStr h path).2 = [] := by
  simp [QHttpResponseHeader.statusCode, QHttp.request, QHttp.requestStr,
    HttpSession.http_emittedBy_self]

/-! ## C4: redirect chains -/

/-- C4, as stated, fails at both ends.  Against a server with no redirect
before the final resource (n = 0) the request emits no `done(false)`, so it
does not succeed; against a chain of six redirects it emits no `done(true)`,
so it does not fail with `TooManyRedirectsError`. -/
theorem C4_counterexample :
    QHttpSignal.done false ∉
      HttpSession.emittedBy (Spec.httpAgainst (Spec.redirectChain 0))
        (QHttp.requestStr (Spec.httpAgainst (Spec.redirectChain 0)) "/file.img").2 ∧
    QHttpSignal.done true ∉
      HttpSession.emittedBy (Spec.httpAgainst (Spec.redirectChain 6))
        (QHttp.requestStr (Spec.httpAgainst (Spec.redirectChain 6)) "/file.img").2 := by
  constructor <;> simp [QHttp.requestStr, HttpSession.http_emittedBy_self]

/-- C4, amended.  For every HTTP GET, whatever the number n of redirects the
server answers with, `request` follows none of them: it returns `0`, emits no
`done` signal (neither success nor `TooManyRedirectsError`), performs no
socket operation and leaves the session as it was; and no response header is
ever seen as a redirect, since `statusCode` is 200 and `hasKey("Location")`
is false. -/
theorem C4_no_redirect_followed (n : Nat) (parent : QObjectPtr) (log : List NetOp)
    (header : QHttpRequestHeader) (data dest : QIODevicePtr) (path response : QString) :
    (QHttp.request (HttpSession.start parent ⟨Spec.redirectChain n, log⟩)
        header data dest)
      = (0, HttpSession.start parent ⟨Spec.redirectChain n, log⟩) ∧
    (QHttp.requestStr (HttpSession.start parent ⟨Spec.redirectChain n, log⟩) path)
      = (0, HttpSession.start parent ⟨Spec.redirectChain n, log⟩) ∧
    HttpSession.emittedBy (HttpSession.start parent ⟨Spec.redirectChain n, log⟩)
      (QHttp.request (HttpSession.start parent ⟨Spec.redirectChain n, log⟩)
        header data dest).2 = [] ∧
    HttpSession.emittedBy (HttpSession.start parent ⟨Spec.redirectChain n, log⟩)
      (QHttp.requestStr (HttpSession.start parent ⟨Spec.redirectChain n, log⟩) path).2
      = [] ∧
    HttpSession.netOpsBy (HttpSession.start parent ⟨Spec.redirectChain n, log⟩)
      (QHttp.request (HttpSession.start parent ⟨Spec.redirectChain n, log⟩)
        header data dest).2 = [] ∧
    HttpSession.netOpsBy (HttpSession.start parent ⟨Spec.redirectChain n, log⟩)
      (QHttp.requestStr (HttpSession.start parent ⟨Spec.redirectChain n, log⟩) path).2
      = [] ∧
    QHttpResponseHeader.statusCode (QHttpResponseHeader.fromString response) = 200 ∧
    QHttpResponseHeader.hasKey (QHttpResponseHeader.fromString response) "Location"
      = false := by
  simp [QHttp.request, QHttp.requestStr, HttpSession.http_emittedBy_self,
    HttpSession.http_netOpsBy_self, QHttpResponseHeader.statusCode, QHttpResponseHeader.hasKey]

/-! ## C5: directory listings -/

/-- C5, as stated, fails.  Against a server whose listing of `/iso/` is the line
`-rw-r--r-- 1 user user 4096 Jan 1 00:00 image.iso`, `list` announces no entry
at all; and the only `QUrlInfo` there is has the name `""` and the size 0,
not `image.iso` and 4096. -/
theorem C5_counterexample :
    FtpSession.listedBy
        (Spec.ftpAgainst Spec.isoListing [FtpCall.connectToHost1 "ftp.example.test",
          FtpCall.login0])
        (QFtp.list
          (Spec.ftpAgainst Spec.isoListing [FtpCall.connectToHost1 "ftp.example.test",
            FtpCall.login0]) "/iso/").2 = [] ∧
    QUrlInfo.name QUrlInfo.new ≠ "image.iso" ∧
    QUrlInfo.size QUrlInfo.new ≠ 4096 := by
  refine ⟨?_, ?_, ?_⟩
  · simp [FtpSession.listedBy, QFtp.list, FtpSession.ftp_emittedBy_self]
  · simp [QUrlInfo.name, QString.null]
  · simp [QUrlInfo.size]

/-- C5, amended.  For every listing the server may send, `list` returns `0` and
emits no `listInfo` and no other signal, so no entry is produced from any
line; and every `QUrlInfo` reports a regular, readable file (`isFile`,
`isReadable`, `isValid` true; `isDir`, `isSymLink` false) whose name is the
empty string and whose size is 0. -/
theorem C5_list_announces_nothing (lines : List QString) (calls : List FtpCall)
    (dir : QString) (info : QUrlInfo) :
    (QFtp.list (Spec.ftpAgainst lines calls) dir).1 = 0 ∧
    FtpSession.emittedBy (Spec.ftpAgainst lines calls)
      (QFtp.list (Spec.ftpAgainst lines calls) dir).2 = [] ∧
    FtpSession.listedBy (Spec.ftpAgainst lines calls)
      (QFtp.list (Spec.ftpAgainst lines calls) dir).2 = [] ∧
    QUrlInfo.name info = "" ∧ QUrlInfo.size info = 0 ∧
    QUrlInfo.isFile info = true ∧ QUrlInfo.isDir info = false ∧
    QUrlInfo.isSymLink info = false ∧ QUrlInfo.isReadable info = true ∧
    QUrlInfo.isValid info = true := by
  simp [FtpSession.listedBy, QFtp.list, FtpSession.ftp_emittedBy_self, QUrlInfo.name,
    QUrlInfo.size, QUrlInfo.isFile, QUrlInfo.isDir, QUrlInfo.isSymLink,
    QUrlInfo.isReadable, QUrlInfo.isValid, QString.null]

/-! ## C6: the default arguments of `login` -/

/-- C6, as stated, fails.  The call `login()` is not the call
`login("anonymous", "")`: the default user name is `QString()`, the empty
string, not `"anonymous"`. -/
theorem C6_counterexample : FtpCall.login0 ≠ FtpCall.login "anonymous" "" := by
  simp [FtpCall.login0, QString.null]

/-- C6, amended.  The call `login()` is the call `login("", "")`: the default
user name and the default password are both the empty string `QString()`.
Its effect is nevertheless that of `login("anonymous", "")`, because `login`
ignores its arguments. -/
theorem C6_login_defaults (s : FtpSession) :
    FtpCall.login0 = FtpCall.login "" "" ∧
    QFtp.perform s FtpCall.login0 = QFtp.perform s (FtpCall.login "anonymous" "") := by
  constructor
  · rfl
  · rfl

/-! ## C7: `close` is idempotent -/

/-- C7.  On both clients `close` is idempotent: for every HTTP session and
every FTP session, closing twice gives the state that closing once gives,
and the second `close` reports no failure (it emits no `done(true)`). -/
theorem C7_close_idempotent (h : HttpSession) (f : FtpSession) :
    QHttp.close (QHttp.close h) = QHttp.close h ∧
    QHttpSignal.done true ∉
      HttpSession.emittedBy (QHttp.close h) (QHttp.close (QHttp.close h)) ∧
    QFtp.close (QFtp.close f) = QFtp.close f ∧
    QFtpSignal.done true ∉
      FtpSession.emittedBy (QFtp.close f) (QFtp.close (QFtp.close f)) := by
  simp [QHttp.close, QFtp.close, HttpSession.http_emittedBy_self, FtpSession.ftp_emittedBy_self]

/-! ## C8: progress is non-negative and non-decreasing -/

/-- C8.  For every request (`request` in either overload on the HTTP client,
`get` and `list` on the FTP client), in the sequence of progress signals
emitted for it the bytes transferred are non-negative and non-decreasing
from each signal to the next.  (The shim emits no progress signal.) -/
theorem C8_progress_monotone (h : HttpSession) (f : FtpSession)
    (header : QHttpRequestHeader) (data dest : QIODevicePtr) (path file dir : QString)
    (dev : QIODevicePtr) (type : QFtp.TransferType) :
    ((∀ b ∈ HttpSession.progressBy h (QHttp.request h header data dest).2, 0 ≤ b) ∧
      List.Chain' (· ≤ ·) (HttpSession.progressBy h (QHttp.request h header data dest).2)) ∧
    ((∀ b ∈ HttpSession.progressBy h (QHttp.requestStr h path).2, 0 ≤ b) ∧
      List.Chain' (· ≤ ·) (HttpSession.progressBy h (QHttp.requestStr h path).2)) ∧
    ((∀ b ∈ FtpSession.progressBy f (QFtp.get f file dev type).2, 0 ≤ b) ∧
      List.Chain' (· ≤ ·) (FtpSession.progressBy f (QFtp.get f file dev type).2)) ∧
    ((∀ b ∈ FtpSession.progressBy f (QFtp.list f dir).2, 0 ≤ b) ∧
      List.Chain' (· ≤ ·) (FtpSession.progressBy f (QFtp.list f dir).2)) := by
  simp [HttpSession.progressBy, FtpSession.progressBy, QHttp.request, QHttp.requestStr,
    QFtp.get, QFtp.list, HttpSession.http_emittedBy_self, FtpSession.ftp_emittedBy_self]

/-! ## C9: the default arguments of `connectToHost` and `get` -/

/-- C9.  For every host, `connectToHost(host)` is the call
`connectToHost(host, 21)`; for every path and destination,
`get(path, destination)` is the call `get(path, destination, Binary)`; and
each pair has the same effect on every session. -/
theorem C9_connect_get_defaults (s : FtpSession) (host path : QString)
    (destination : QIODevicePtr) :
    FtpCall.connectToHost1 host = FtpCall.connectToHost host 21 ∧
    FtpCall.get2 path destination
      = FtpCall.get path destination QFtp.TransferType.Binary ∧
    QFtp.perform s (FtpCall.connectToHost1 host)
      = QFtp.connectToHost s host 21 ∧
    QFtp.perform s (FtpCall.get2 path destination)
      = (QFtp.get s path destination QFtp.TransferType.Binary).2 := by
  refine ⟨rfl, rfl, rfl, rfl⟩

/-! ## C10: a response header does not depend on how it was constructed -/

/-- C10.  The observable values of a `QHttpResponseHeader` do not depend on the
string it was constructed from: for every two construction strings, for the
default constructor, and for every key, `statusCode()` is 200, `hasKey(key)`
is false and `value(key)` is the empty string. -/
theorem C10_response_header_constant (str₁ str₂ key : QString) :
    (QHttpResponseHeader.statusCode (QHttpResponseHeader.fromString str₁) = 200 ∧
      QHttpResponseHeader.hasKey (QHttpResponseHeader.fromString str₁) key = false ∧
      QHttpResponseHeader.value (QHttpResponseHeader.fromString str₁) key = "") ∧
    (QHttpResponseHeader.statusCode (QHttpResponseHeader.fromString str₂) = 200 ∧
      QHttpResponseHeader.hasKey (QHttpResponseHeader.fromString str₂) key = false ∧
      QHttpResponseHeader.value (QHttpResponseHeader.fromString str₂) key = "") ∧
    (QHttpResponseHeader.statusCode QHttpResponseHeader.new = 200 ∧
      QHttpResponseHeader.hasKey QHttpResponseHeader.new key = false ∧
      QHttpResponseHeader.value QHttpResponseHeader.new key = "") ∧
    QHttpResponseHeader.fromString str₁ = QHttpResponseHeader.fromString str₂ := by
  refine ⟨⟨rfl, rfl, rfl⟩, ⟨rfl, rfl, rfl⟩, ⟨rfl, rfl, rfl⟩, rfl⟩

end Qt4Compat
